import Mathlib

/-!
Verification of the PredSwipe swipe-session client against its code.

The definitions below are a shallow embedding of `src/components/SwipeInterface.js`
(and the balance-normalization logic of `CategorySelection.js`).  JavaScript numbers
are modelled as rationals, with an explicit `JNum.nan` case where `isNaN`/truthiness
checks in the source are semantically relevant; `undefined`/`null` fields are
modelled with `Option`; network calls and timers are modelled by passing their
outcome in explicitly and recording emitted side effects in an `Effect` list.
-/

/-- Vote direction, the `'yes' | 'no'` strings passed to `handleSwipe`. -/
inductive Direction where
  | yes
  | no
deriving DecidableEq, Repr

/-- A JavaScript number: either an actual rational value or NaN. -/
inductive JNum where
  | nan
  | fin (q : ℚ)
deriving DecidableEq, Repr

/-- A JSON field value as the balance code inspects it: a number (possibly NaN),
or a non-numeric value (string/object/array/null) whose `parseFloat` is NaN.
Numeric strings are modelled as `num` since `parseFloat` recovers their value. -/
inductive JVal where
  | num (v : JNum)
  | nonnum
deriving DecidableEq, Repr

/-- Semantics of JavaScript `parseFloat` on a field value, as used by the
balance normalization: numbers pass through, non-numeric values give NaN. -/
def parseFloatJ : JVal → JNum
  | .num v => v
  | .nonnum => .nan

/-- Division of a JavaScript number by 100 (`x / 100`); NaN propagates. -/
def jdiv100 : JNum → JNum
  | .nan => .nan
  | .fin q => .fin (q / 100)

/-- Semantics of JavaScript `isNaN` on a number. -/
def isNaNb : JNum → Bool
  | .nan => true
  | .fin _ => false

/-- The broker credential pair held on the `user` prop
(`kalshiApiKey`, `kalshiPrivateKey`). -/
structure Credentials where
  kalshiApiKey : String
  kalshiPrivateKey : String
deriving DecidableEq, Repr

/-- The guard `!user?.kalshiApiKey || !user?.kalshiPrivateKey` from
`fetchBalance`/`fetchMarkets`: true when the user object is absent or either
credential string is empty (the empty string is falsy in JavaScript). -/
def credsMissing : Option Credentials → Bool
  | none => true
  | some u => u.kalshiApiKey = "" || u.kalshiPrivateKey = ""

/-- A prediction record as stored in the `predictions` state: the sample-data
records carry only `question` and `price` (all other fields absent), while
live records formatted from the broker response carry the full shape. -/
structure Market where
  question : String
  ticker : Option String := none
  teamName : String := ""
  matchInfo : String := ""
  price : ℚ
  yesBid : Option ℚ := none
  noBid : Option ℚ := none
  yesAsk : Option ℚ := none
  noAsk : Option ℚ := none
deriving DecidableEq, Repr

/-- A raw market record from the broker's `markets` listing, before the
`formattedMarkets` transformation. -/
structure RawMarket where
  ticker : Option String := none
  title : Option String := none
  yesBid : Option ℚ := none
  noBid : Option ℚ := none
  yesAsk : Option ℚ := none
  noAsk : Option ℚ := none
deriving DecidableEq, Repr

/-- The abbreviation-to-full-name lookup table `teamMap`, in source order
(iteration order of `Object.entries` is insertion order for these keys). -/
def teamMap : List (String × String) :=
  [("MIA", "Miami"), ("SAS", "San Antonio"), ("LAL", "Lakers"), ("GSW", "Warriors"),
   ("BOS", "Celtics"), ("NYK", "Knicks"), ("CHI", "Bulls"), ("PHI", "76ers"),
   ("DAL", "Mavericks"), ("DEN", "Nuggets"), ("PHX", "Suns"), ("MIL", "Bucks"),
   ("BKN", "Nets"), ("LAC", "Clippers"), ("ATL", "Hawks"), ("MEM", "Grizzlies"),
   ("MIN", "Timberwolves"), ("NOP", "Pelicans"), ("OKC", "Thunder"),
   ("POR", "Trail Blazers"), ("SAC", "Kings"), ("UTA", "Jazz"), ("HOU", "Rockets"),
   ("CHA", "Hornets"), ("DET", "Pistons"), ("IND", "Pacers"), ("ORL", "Magic"),
   ("TOR", "Raptors"), ("WAS", "Wizards"), ("CLE", "Cavaliers")]

/-- Split a character list at each hyphen, the semantics of
JavaScript `str.split('-')` (adjacent hyphens yield empty segments). -/
def splitHyphenAux : List Char → List Char → List String
  | [], acc => [String.mk acc.reverse]
  | c :: rest, acc =>
    if c = '-' then String.mk acc.reverse :: splitHyphenAux rest []
    else splitHyphenAux rest (c :: acc)

/-- JavaScript `ticker.split('-')`. -/
def splitHyphen (s : String) : List String :=
  splitHyphenAux s.data []

/-- Does the character list `s` contain `pat` as a contiguous sublist? -/
def containsAux (pat : List Char) : List Char → Bool
  | [] => pat.isEmpty
  | c :: rest => pat.isPrefixOf (c :: rest) || containsAux pat rest

/-- JavaScript `s.includes(pat)`: substring containment. -/
def strIncludes (s pat : String) : Bool :=
  containsAux pat.data s.data

/-- JavaScript `a || b` on two possibly-absent strings (the empty string is
falsy); used for `market.title || market.ticker` and
`teamMap[teamName] || teamName`.  Both absent yields the empty string. -/
def jsOrStr (a b : Option String) : String :=
  match a with
  | some s => if s ≠ "" then s else (match b with | some t => t | none => "")
  | none => match b with | some t => t | none => ""

/-- The ticker-parsing heuristic inside `formattedMarkets`
(SwipeInterface.js lines 208-248): derive a display question, the trailing
team abbreviation, and match info from a hyphen-delimited ticker, falling
back to `title || ticker` when the ticker has fewer than three segments. -/
def parseTicker (ticker : Option String) (title : Option String) :
    String × String × String :=
  let question := jsOrStr title ticker
  match ticker with
  | none => (question, "", "")
  | some tk =>
    if tk = "" then (question, "", "")
    else
      let tickerParts := splitHyphen tk
      if tickerParts.length ≥ 3 then
        let teamName := tickerParts.getD (tickerParts.length - 1) ""
        let matchInfo :=
          if tickerParts.length ≥ 2 && tickerParts.getD 1 "" ≠ "" then
            let matchString := tickerParts.getD 1 ""
            let teamsInMatch :=
              (teamMap.filter (fun p => strIncludes matchString p.1)).map (fun p => p.2)
            if teamsInMatch.length ≥ 2 then
              String.intercalate " vs " teamsInMatch
            else
              match teamMap.lookup teamName with
              | some fullName => fullName ++ " Wins"
              | none => ""
          else ""
        let question2 :=
          if matchInfo ≠ "" && teamName ≠ "" then
            matchInfo ++ " - Will " ++ jsOrStr (teamMap.lookup teamName) (some teamName)
              ++ " Win?"
          else if teamName ≠ "" then
            "Will " ++ jsOrStr (teamMap.lookup teamName) (some teamName) ++ " Win?"
          else question
        (question2, teamName, matchInfo)
      else (question, "", "")

/-- The price derivation `market.yes_bid ? parseFloat(market.yes_bid) / 100 : 0.5`
(SwipeInterface.js line 255): a present, nonzero yes-bid is divided by 100,
while an absent or zero (falsy) yes-bid defaults to one half. -/
def marketPrice : Option ℚ → ℚ
  | some v => if v ≠ 0 then v / 100 else 1/2
  | none => 1/2

/-- The `formattedMarkets` per-record transformation (lines 208-261):
parse the ticker, derive the price, and carry the raw bid/ask fields over. -/
def formatMarket (r : RawMarket) : Market :=
  let parsed := parseTicker r.ticker r.title
  { question := parsed.1
    ticker := r.ticker
    teamName := parsed.2.1
    matchInfo := parsed.2.2
    price := marketPrice r.yesBid
    yesBid := r.yesBid
    noBid := r.noBid
    yesAsk := r.yesAsk
    noAsk := r.noAsk }

/-- The static `predictionData.football` sample list. -/
def sampleFootball : List Market :=
  [{ question := "Will Manchester United win their next game?", price := 0.45 },
   { question := "Will Liverpool score more than 2 goals?", price := 0.35 },
   { question := "Will Arsenal finish in the top 4?", price := 0.65 },
   { question := "Will Chelsea win the Champions League?", price := 0.15 },
   { question := "Will Manchester City win the Premier League?", price := 0.75 },
   { question := "Will Tottenham beat their next opponent?", price := 0.55 },
   { question := "Will Newcastle finish in the top 6?", price := 0.25 },
   { question := "Will Brighton score in their next match?", price := 0.60 }]

/-- The static `predictionData.basketball` sample list. -/
def sampleBasketball : List Market :=
  [{ question := "Will the Lakers win their next game?", price := 0.55 },
   { question := "Will LeBron score more than 25 points?", price := 0.50 },
   { question := "Will the Warriors make the playoffs?", price := 0.35 },
   { question := "Will the Celtics win the Eastern Conference?", price := 0.25 },
   { question := "Will the Nuggets repeat as champions?", price := 0.15 },
   { question := "Will Luka Doncic score 30+ points?", price := 0.60 },
   { question := "Will the Heat make the Finals?", price := 0.20 },
   { question := "Will the Bucks win 50+ games?", price := 0.70 }]

/-- The static `predictionData.tennis` sample list. -/
def sampleTennis : List Market :=
  [{ question := "Will Djokovic win the next Grand Slam?", price := 0.40 },
   { question := "Will Serena Williams return to top 10?", price := 0.05 },
   { question := "Will Nadal win the French Open?", price := 0.30 },
   { question := "Will Federer make a comeback?", price := 0.02 },
   { question := "Will Osaka win another major?", price := 0.20 },
   { question := "Will Medvedev win Wimbledon?", price := 0.35 },
   { question := "Will Halep return to form?", price := 0.12 },
   { question := "Will Thiem win a Grand Slam?", price := 0.08 }]

/-- The static `predictionData.crypto` sample list. -/
def sampleCrypto : List Market :=
  [{ question := "Will Bitcoin reach $100,000?", price := 0.30 },
   { question := "Will Ethereum outperform Bitcoin?", price := 0.55 },
   { question := "Will Solana reach $200?", price := 0.20 },
   { question := "Will Cardano hit $5?", price := 0.05 },
   { question := "Will Dogecoin reach $1?", price := 0.01 },
   { question := "Will Polygon surge 50%?", price := 0.40 },
   { question := "Will Chainlink hit $50?", price := 0.12 },
   { question := "Will Avalanche reach $100?", price := 0.25 }]

/-- The static `predictionData.stocks` sample list. -/
def sampleStocks : List Market :=
  [{ question := "Will Apple stock reach $200?", price := 0.60 },
   { question := "Will Tesla stock surge 30%?", price := 0.35 },
   { question := "Will Amazon beat earnings?", price := 0.55 },
   { question := "Will Google stock hit $150?", price := 0.45 },
   { question := "Will Microsoft reach $400?", price := 0.65 },
   { question := "Will Netflix stock recover?", price := 0.30 },
   { question := "Will Meta stock bounce back?", price := 0.40 },
   { question := "Will Nvidia continue rising?", price := 0.50 }]

/-- The static `predictionData.random` sample list. -/
def sampleRandom : List Market :=
  [{ question := "Will Manchester United win their next game?", price := 0.45 },
   { question := "Will Bitcoin reach $100,000?", price := 0.30 },
   { question := "Will the Lakers win their next game?", price := 0.55 },
   { question := "Will Apple stock reach $200?", price := 0.60 },
   { question := "Will Djokovic win the next Grand Slam?", price := 0.40 },
   { question := "Will Tesla stock surge 30%?", price := 0.35 },
   { question := "Will Arsenal finish in the top 4?", price := 0.65 },
   { question := "Will Ethereum outperform Bitcoin?", price := 0.55 }]

/-- The lookup `predictionData[category.id] || predictionData.random`:
each recognized category id selects its fixed sample list, any other id
falls back to the `random` list. -/
def predictionData (categoryId : String) : List Market :=
  if categoryId = "football" then sampleFootball
  else if categoryId = "basketball" then sampleBasketball
  else if categoryId = "tennis" then sampleTennis
  else if categoryId = "crypto" then sampleCrypto
  else if categoryId = "stocks" then sampleStocks
  else if categoryId = "random" then sampleRandom
  else sampleRandom

/-- Outcome of the `/api/markets` request as `fetchMarkets` observes it:
a non-2xx response carrying an optional `error` field in its body, a thrown
transport error with its message, or a parsed success body whose `markets`
field may be absent (`data.markets || []`). -/
inductive MarketsNet where
  | httpError (errField : Option String)
  | netError (msg : String)
  | success (markets : Option (List RawMarket))
deriving DecidableEq, Repr

/-- Result of one `fetchMarkets` run (lines 159-282): the `predictions` list
that gets stored and the final value of the `error` state (the error state
starts `null` and `setError(null)` runs before the request).  With missing
credentials the sample list for the category is used and no request is made;
on success, formatted markets are used when nonempty, else the sample list;
any failure stores the message and falls back to the sample list. -/
def fetchMarkets (categoryId : String) (user : Option Credentials)
    (net : MarketsNet) : List Market × Option String :=
  if credsMissing user then (predictionData categoryId, none)
  else
    match net with
    | .success ms =>
      let formattedMarkets := (ms.getD []).map formatMarket
      if formattedMarkets.length > 0 then (formattedMarkets, none)
      else (predictionData categoryId, none)
    | .httpError errField =>
      (predictionData categoryId, some (jsOrStr errField (some "Failed to fetch markets")))
    | .netError msg => (predictionData categoryId, some msg)

/-- Side effects the component emits, recorded rather than performed:
order-placement requests and their logging, the 300ms vote-pacing timer,
the 500ms loading-clear timer of `resetSession`, a markets fetch, and the
balance request and its error logging. -/
inductive Effect where
  | orderRequest (side : Direction)
  | logOrderSuccess
  | logOrderError
  | scheduleAdvance (ms : Nat)
  | scheduleLoadingClear (ms : Nat)
  | fetchMarketsCall
  | balanceRequest
  | logBalanceError
deriving DecidableEq, Repr

/-- The SwipeInterface component state: `currentIndex` (the cursor),
`predictions` (the markets), `stats` (the tally), the transient
`swipeDirection`, the number of vote-pacing `setTimeout` callbacks that have
been scheduled but have not fired yet, the loading/error flags, and the
balance-related state. -/
structure SwipeState where
  currentIndex : Nat
  predictions : List Market
  statsYes : Nat
  statsNo : Nat
  swipeDirection : Option Direction
  pendingAdvances : Nat
  isLoading : Bool
  errorMsg : Option String
  accountBalance : Option JNum
  balanceLoading : Bool
deriving DecidableEq, Repr

/-- The `useState` initial values of the component. -/
def initialState : SwipeState :=
  { currentIndex := 0, predictions := [], statsYes := 0, statsNo := 0,
    swipeDirection := none, pendingAdvances := 0, isLoading := true,
    errorMsg := none, accountBalance := none, balanceLoading := true }

/-- A session start: the state right after market resolution has populated
`predictions` and cleared the loading flag, with cursor and tally at zero. -/
def sessionStart (markets : List Market) : SwipeState :=
  { initialState with predictions := markets, isLoading := false }

/-- Outcome of the order-placement call issued inside `handleSwipe`:
success, a non-2xx response, or a thrown transport error. -/
inductive OrderOutcome where
  | ok
  | httpFail (msg : String)
  | netFail (msg : String)
deriving DecidableEq, Repr

/-- The guard on the order-placement side effect (line 317):
`currentPrediction?.ticker && user?.kalshiApiKey && user?.kalshiPrivateKey`. -/
def placeOrderCond (s : SwipeState) (user : Option Credentials) : Bool :=
  (match s.predictions.get? s.currentIndex with
   | some m => match m.ticker with
     | some t => t ≠ ""
     | none => false
   | none => false)
  && !credsMissing user

/-- The `handleSwipe(direction)` handler (lines 306-349), with the outcome of
the order-placement call passed in.  If the cursor is past the end it returns
immediately.  Otherwise it sets the transient direction, increments the tally
for `direction`, issues at most one order request (logging its outcome, with
any failure only logged), and schedules the 300ms advance callback.  The
resulting state never depends on the order outcome. -/
def handleSwipe (user : Option Credentials) (s : SwipeState) (direction : Direction)
    (outcome : OrderOutcome) : SwipeState × List Effect :=
  if s.currentIndex ≥ s.predictions.length then (s, [])
  else
    let s1 := { s with
      swipeDirection := some direction
      statsYes := if direction = Direction.yes then s.statsYes + 1 else s.statsYes
      statsNo := if direction = Direction.no then s.statsNo + 1 else s.statsNo }
    let orderEffects :=
      if placeOrderCond s user then
        [Effect.orderRequest direction] ++
          (match outcome with
           | .ok => [Effect.logOrderSuccess]
           | .httpFail _ => [Effect.logOrderError]
           | .netFail _ => [Effect.logOrderError])
      else []
    ({ s1 with pendingAdvances := s1.pendingAdvances + 1 },
     orderEffects ++ [Effect.scheduleAdvance 300])

/-- One scheduled vote-pacing callback firing (lines 345-348):
`setCurrentIndex(prev => prev + 1); setSwipeDirection(null)`.  A no-op when
nothing is pending (a callback that was never scheduled cannot fire). -/
def fireAdvance (s : SwipeState) : SwipeState :=
  if s.pendingAdvances = 0 then s
  else { s with currentIndex := s.currentIndex + 1, swipeDirection := none,
                pendingAdvances := s.pendingAdvances - 1 }

/-- A skip (space key, lines 294-299, or the skip button, which is rendered
only while the cursor is in range): advance the cursor by one and clear the
transient direction.  The keyboard handler returns early when
`currentIndex >= predictions.length`. -/
def skipStep (s : SwipeState) : SwipeState :=
  if s.currentIndex ≥ s.predictions.length then s
  else { s with currentIndex := s.currentIndex + 1, swipeDirection := none }

/-- An event in the swipe session: a vote (with its order-call outcome),
a skip, or a pending vote-pacing timer firing. -/
inductive EngStep where
  | vote (d : Direction) (outcome : OrderOutcome)
  | skip
  | fire
deriving DecidableEq, Repr

/-- Apply one session event to the state. -/
def engStep (user : Option Credentials) (s : SwipeState) : EngStep → SwipeState
  | .vote d outcome => (handleSwipe user s d outcome).1
  | .skip => skipStep s
  | .fire => fireAdvance s

/-- Run a sequence of session events. -/
def runEng (user : Option Credentials) (s : SwipeState) (l : List EngStep) : SwipeState :=
  l.foldl (engStep user) s

/-- A vote with its pacing delay collapsed to zero: the `handleSwipe` state
update immediately followed by its scheduled advance firing.  This is the
granularity at which votes are atomic. -/
def atomicVote (user : Option Credentials) (s : SwipeState) (d : Direction)
    (outcome : OrderOutcome) : SwipeState :=
  fireAdvance (handleSwipe user s d outcome).1

/-- A session event at atomic-vote granularity: each vote completes (its
advance fires) before the next event is issued. -/
inductive AtomicStep where
  | vote (d : Direction) (outcome : OrderOutcome)
  | skip
deriving DecidableEq, Repr

/-- Apply one atomic-granularity event. -/
def atomicStep (user : Option Credentials) (s : SwipeState) : AtomicStep → SwipeState
  | .vote d outcome => atomicVote user s d outcome
  | .skip => skipStep s

/-- Run a sequence of atomic-granularity events. -/
def runAtomic (user : Option Credentials) (s : SwipeState) (l : List AtomicStep) :
    SwipeState :=
  l.foldl (atomicStep user) s

/-- The `resetSession` handler (lines 351-358): zero the cursor and the tally,
set the loading flag, and schedule a 500ms timer that clears it again.  The
`predictions` list is not touched and no market fetch is issued. -/
def resetSession (s : SwipeState) : SwipeState × List Effect :=
  ({ s with currentIndex := 0, statsYes := 0, statsNo := 0, isLoading := true },
   [Effect.scheduleLoadingClear 500])

/-- Outcome of the `/api/balance` request: non-2xx response (with optional
`error` body field), thrown transport error, or a parsed JSON body given as
an association list of its fields in insertion order. -/
inductive BalanceNet where
  | httpError (errField : Option String)
  | netError (msg : String)
  | success (data : List (String × JVal))
deriving DecidableEq, Repr

/-- The balance normalization of `SwipeInterface.js` `fetchBalance`
(lines 139-144): a present `balance` field is divided by 100 (numbers
directly, anything else through `parseFloat`), else a present `balance_cents`
field is parsed and divided by 100, else the result is null. -/
def normalizeBalanceSwipe (data : List (String × JVal)) : Option JNum :=
  match data.lookup "balance" with
  | some v => some (jdiv100 (parseFloatJ v))
  | none =>
    match data.lookup "balance_cents" with
    | some v => some (jdiv100 (parseFloatJ v))
    | none => none

/-- The numeric-and-positive filter of the last-resort branch in
`CategorySelection.js` (`typeof v === 'number' && v > 0`); NaN compares
false against 0 so it is excluded. -/
def positiveNumField : JVal → Option ℚ
  | .num (.fin q) => if 0 < q then some q else none
  | _ => none

/-- The balance normalization of `CategorySelection.js` `fetchBalance`
(part_002 lines 77-93): `balance` as cents divided by 100, else
`balance_cents` divided by 100, else `account_balance` or
`portfolio_balance` taken as already-decimal, else the first positive
numeric field of the body treated as cents and divided by 100, else null. -/
def normalizeBalanceCat (data : List (String × JVal)) : Option JNum :=
  match data.lookup "balance" with
  | some v => some (jdiv100 (parseFloatJ v))
  | none =>
    match data.lookup "balance_cents" with
    | some v => some (jdiv100 (parseFloatJ v))
    | none =>
      match data.lookup "account_balance" with
      | some v => some (parseFloatJ v)
      | none =>
        match data.lookup "portfolio_balance" with
        | some v => some (parseFloatJ v)
        | none =>
          match data.filterMap (fun p => positiveNumField p.2) with
          | [] => none
          | q :: _ => some (JNum.fin (q / 100))

/-- The `fetchBalance` effect of `SwipeInterface.js` (lines 114-157): with
missing credentials it only clears the loading flag and issues no request;
otherwise it issues one request, stores the normalized balance only when it
is non-null and not NaN, logs any failure, and always clears the loading
flag. -/
def fetchBalance (user : Option Credentials) (net : BalanceNet) (s : SwipeState) :
    SwipeState × List Effect :=
  if credsMissing user then ({ s with balanceLoading := false }, [])
  else
    match net with
    | .success data =>
      let balance := normalizeBalanceSwipe data
      let s1 :=
        match balance with
        | some v => if isNaNb v then s else { s with accountBalance := some v }
        | none => s
      ({ s1 with balanceLoading := false }, [Effect.balanceRequest])
    | .httpError _ =>
      ({ s with balanceLoading := false }, [Effect.balanceRequest, Effect.logBalanceError])
    | .netError _ =>
      ({ s with balanceLoading := false }, [Effect.balanceRequest, Effect.logBalanceError])

/-- What the balance widget of `SwipeInterface.js` renders (lines 415-424). -/
inductive BalanceDisplay where
  | loadingText
  | money (v : JNum)
  | placeholder
deriving DecidableEq, Repr

/-- The balance rendering branch (lines 416-422): the loading text while
loading, the formatted amount only when the stored balance is present and
not NaN, and the `--` placeholder otherwise. -/
def displayBalance (s : SwipeState) : BalanceDisplay :=
  if s.balanceLoading then .loadingText
  else
    match s.accountBalance with
    | some v => if isNaNb v then .placeholder else .money v
    | none => .placeholder

/-- Count of order-placement requests in an effect list. -/
def countOrderRequests (l : List Effect) : Nat :=
  (l.filter (fun e => match e with | .orderRequest _ => true | _ => false)).length

/-- A concrete raw market record, as the broker listing would return it. -/
def rawSample : RawMarket :=
  { ticker := some "KXNBAGAME-25OCT30MIASAS-SAS", yesBid := some 45 }

/-- A one-market predictions list obtained through the live resolver path. -/
def liveMarkets : List Market :=
  (fetchMarkets "basketball" (some ⟨"kkk", "ppp"⟩)
    (MarketsNet.success (some [rawSample]))).1

/-- A concrete completed session over `liveMarkets`. -/
def completeState : SwipeState :=
  { sessionStart liveMarkets with currentIndex := 1 }

/-- C6: the ticker parser satisfies the spec's two worked examples — the
three-segment NBA ticker with no title yields team name SAS, match info
listing Miami and San Antonio in lookup-table order, and the derived
question; a ticker with fewer than three segments keeps the given title and
derives nothing. -/
theorem c6_ticker_parse_examples :
    parseTicker (some "KXNBAGAME-25OCT30MIASAS-SAS") none =
      ("Miami vs San Antonio - Will San Antonio Win?", "SAS", "Miami vs San Antonio")
    ∧ parseTicker (some "ABC") (some "Some Title") = ("Some Title", "", "") := by
  exact ⟨by decide, by decide⟩

/-- C7 counterexample: a present yes-bid of 0 is falsy, so the derived price
is 0.5 rather than 0/100 = 0 as the claim states; and a yes-bid above 100 is
passed through undamped, leaving the interval [0,1]. -/
theorem c7_price_counterexample :
    marketPrice (some 0) = 1/2
    ∧ ¬ marketPrice (some 0) = 0 / 100
    ∧ (formatMarket { rawSample with yesBid := some 0 }).price = 1/2
    ∧ marketPrice (some 150) = 150 / 100
    ∧ ¬ marketPrice (some 150) ≤ 1 := by
  refine ⟨by norm_num [marketPrice], by norm_num [marketPrice], ?_,
    by norm_num [marketPrice], by norm_num [marketPrice]⟩
  show marketPrice (some 0) = 1/2
  norm_num [marketPrice]

/-- C7 amended: the derived price equals the raw yes-bid divided by 100 when
that field is present and nonzero, and 0.5 when it is absent or zero; the
price lies in [0,1] provided the raw yes-bid lies in [0,100]. -/
theorem c7_price_amended (r : RawMarket) (v : ℚ) :
    (formatMarket r).price = marketPrice r.yesBid
    ∧ (v ≠ 0 → marketPrice (some v) = v / 100)
    ∧ marketPrice (some 0) = 1/2
    ∧ marketPrice none = 1/2
    ∧ (0 ≤ v → v ≤ 100 → 0 ≤ marketPrice (some v) ∧ marketPrice (some v) ≤ 1) := by
  refine ⟨rfl, fun h => by simp [marketPrice, h], by norm_num [marketPrice],
    by norm_num [marketPrice], fun h0 h100 => ?_⟩
  by_cases hz : v = 0
  · subst hz; norm_num [marketPrice]
  · simp only [marketPrice, hz, if_pos, ne_eq, not_false_iff, if_true]
    constructor
    · positivity
    · rw [div_le_one (by norm_num : (0:ℚ) < 100)]; exact h100

/-- C7 witness: the amended statement evaluated at a concrete record with a
yes-bid of 45 cents. -/
theorem c7_price_amended_witness :
    marketPrice (some 45) = 45 / 100
    ∧ 0 ≤ marketPrice (some 45) ∧ marketPrice (some 45) ≤ 1 :=
  ⟨(c7_price_amended rawSample 45).2.1 (by norm_num),
   (c7_price_amended rawSample 45).2.2.2.2 (by norm_num) (by norm_num)⟩

/-- C4 counterexample: resetting from a completed session keeps the exact
markets list of the prior session in state and emits no market-resolver
invocation — only the 500ms loading-clear timer — contradicting the claim
that a fresh resolution occurs and the list is not cached. -/
theorem c4_reset_counterexample :
    completeState.currentIndex ≥ completeState.predictions.length
    ∧ (resetSession completeState).1.predictions = completeState.predictions
    ∧ (resetSession completeState).1.predictions ≠ []
    ∧ Effect.fetchMarketsCall ∉ (resetSession completeState).2 := by
  refine ⟨by decide, rfl, by decide, by decide⟩

/-- C4 amended: invoking reset from the complete state yields cursor 0 and a
zero tally and re-enters the loading state (cleared again by a 500ms timer),
but the markets list is retained unchanged from the prior session and no
fresh Market Resolver invocation is triggered. -/
theorem c4_reset_amended (s : SwipeState)
    (h : s.currentIndex ≥ s.predictions.length) :
    (resetSession s).1.currentIndex = 0
    ∧ (resetSession s).1.statsYes = 0
    ∧ (resetSession s).1.statsNo = 0
    ∧ (resetSession s).1.isLoading = true
    ∧ (resetSession s).1.predictions = s.predictions
    ∧ (resetSession s).2 = [Effect.scheduleLoadingClear 500]
    ∧ Effect.fetchMarketsCall ∉ (resetSession s).2 := by
  refine ⟨rfl, rfl, rfl, rfl, rfl, rfl, by simp [resetSession]⟩

/-- C4 witness: the amended statement evaluated at the concrete completed
session state. -/
theorem c4_reset_amended_witness :
    (resetSession completeState).1.currentIndex = 0
    ∧ (resetSession completeState).1.statsYes = 0
    ∧ (resetSession completeState).1.statsNo = 0
    ∧ (resetSession completeState).1.isLoading = true
    ∧ (resetSession completeState).1.predictions = completeState.predictions
    ∧ (resetSession completeState).2 = [Effect.scheduleLoadingClear 500]
    ∧ Effect.fetchMarketsCall ∉ (resetSession completeState).2 :=
  c4_reset_amended completeState (by decide)

/-- C2: the order-placement side effect of a vote is fire-and-forget — the
component state after a vote whose order call failed (non-2xx or thrown) is
identical to the state after a successful one: the tally increment, the
transient direction, and the scheduled advance all happen regardless; the
failure is only logged, never stored in the error state, and the single
order request is never retried. -/
theorem c2_order_fire_and_forget (user : Option Credentials) (s : SwipeState)
    (d : Direction) (m1 m2 : String)
    (h : s.currentIndex < s.predictions.length) :
    (handleSwipe user s d (OrderOutcome.httpFail m1)).1
      = (handleSwipe user s d OrderOutcome.ok).1
    ∧ (handleSwipe user s d (OrderOutcome.netFail m2)).1
      = (handleSwipe user s d OrderOutcome.ok).1
    ∧ (handleSwipe user s d (OrderOutcome.httpFail m1)).1.statsYes
        + (handleSwipe user s d (OrderOutcome.httpFail m1)).1.statsNo
      = s.statsYes + s.statsNo + 1
    ∧ (handleSwipe user s d (OrderOutcome.httpFail m1)).1.swipeDirection = some d
    ∧ (handleSwipe user s d (OrderOutcome.httpFail m1)).1.pendingAdvances
      = s.pendingAdvances + 1
    ∧ Effect.scheduleAdvance 300 ∈ (handleSwipe user s d (OrderOutcome.httpFail m1)).2
    ∧ (handleSwipe user s d (OrderOutcome.httpFail m1)).1.errorMsg = s.errorMsg
    ∧ (handleSwipe user s d (OrderOutcome.netFail m2)).1.errorMsg = s.errorMsg
    ∧ countOrderRequests (handleSwipe user s d (OrderOutcome.httpFail m1)).2 ≤ 1
    ∧ (placeOrderCond s user = false →
        countOrderRequests (handleSwipe user s d (OrderOutcome.httpFail m1)).2 = 0) := by
  have hn : ¬ s.currentIndex ≥ s.predictions.length := not_le.mpr h
  refine ⟨by simp [handleSwipe, hn], by simp [handleSwipe, hn], ?_, ?_, ?_, ?_, ?_, ?_, ?_, ?_⟩
  · simp only [handleSwipe, hn, if_false]
    cases d <;> simp <;> omega
  · simp [handleSwipe, hn]
  · simp [handleSwipe, hn]
  · simp only [handleSwipe, hn, if_false]
    by_cases hc : placeOrderCond s user <;> simp [hc]
  · simp [handleSwipe, hn]
  · simp [handleSwipe, hn]
  · simp only [handleSwipe, hn, if_false]
    by_cases hc : placeOrderCond s user <;> simp [hc, countOrderRequests]
  · intro hc
    simp [handleSwipe, hn, hc, countOrderRequests]

/-- C2 witness: the fire-and-forget property evaluated for a concrete failed
order on the live one-market session. -/
theorem c2_order_fire_and_forget_witness :
    (handleSwipe (some ⟨"kkk", "ppp"⟩) (sessionStart liveMarkets) Direction.yes
        (OrderOutcome.httpFail "order rejected")).1
      = (handleSwipe (some ⟨"kkk", "ppp"⟩) (sessionStart liveMarkets) Direction.yes
          OrderOutcome.ok).1
    ∧ (handleSwipe (some ⟨"kkk", "ppp"⟩) (sessionStart liveMarkets) Direction.yes
        (OrderOutcome.httpFail "order rejected")).1.statsYes
        + (handleSwipe (some ⟨"kkk", "ppp"⟩) (sessionStart liveMarkets) Direction.yes
            (OrderOutcome.httpFail "order rejected")).1.statsNo
      = (sessionStart liveMarkets).statsYes + (sessionStart liveMarkets).statsNo + 1 := by
  have h := c2_order_fire_and_forget (some ⟨"kkk", "ppp"⟩) (sessionStart liveMarkets)
    Direction.yes "order rejected" "network down" (by decide)
  exact ⟨h.1, h.2.2.1⟩

/-- C3 counterexample: in the live one-market session, a first vote sets the
transient direction while leaving the cursor at 0; before the pacing delay
fires, a second vote for the same item is accepted — it increments the tally
again and fires a second order request — contradicting the claim that the
engine blocks a second vote until advance runs. -/
theorem c3_second_vote_counterexample :
    (handleSwipe (some ⟨"kkk", "ppp"⟩) (sessionStart liveMarkets) Direction.yes
        OrderOutcome.ok).1.swipeDirection = some Direction.yes
    ∧ (handleSwipe (some ⟨"kkk", "ppp"⟩) (sessionStart liveMarkets) Direction.yes
        OrderOutcome.ok).1.currentIndex = 0
    ∧ (handleSwipe (some ⟨"kkk", "ppp"⟩)
        (handleSwipe (some ⟨"kkk", "ppp"⟩) (sessionStart liveMarkets) Direction.yes
          OrderOutcome.ok).1 Direction.no OrderOutcome.ok).1.statsNo = 1
    ∧ countOrderRequests
        (handleSwipe (some ⟨"kkk", "ppp"⟩)
          (handleSwipe (some ⟨"kkk", "ppp"⟩) (sessionStart liveMarkets) Direction.yes
            OrderOutcome.ok).1 Direction.no OrderOutcome.ok).2 = 1 := by
  refine ⟨by decide, by decide, by decide, by decide⟩

/-- C3 amended: the engine does ignore any vote or skip issued while the
cursor is at or past the end of the markets list — in particular before
initialization populates the list, when it is empty — and each vote fires at
most one order-placement request; but a second vote for the same item is not
blocked while the transient direction is set, since the cursor check is the
only guard. -/
theorem c3_guard_amended :
    (∀ (user : Option Credentials) (s : SwipeState) (d : Direction) (o : OrderOutcome),
        s.currentIndex ≥ s.predictions.length →
          handleSwipe user s d o = (s, []) ∧ skipStep s = s)
    ∧ (∀ (user : Option Credentials) (d : Direction) (o : OrderOutcome),
        handleSwipe user initialState d o = (initialState, []))
    ∧ (∀ (user : Option Credentials) (s : SwipeState) (d : Direction) (o : OrderOutcome),
        countOrderRequests (handleSwipe user s d o).2 ≤ 1) := by
  refine ⟨fun user s d o h => ⟨by simp [handleSwipe, h], by simp [skipStep, h]⟩,
    fun user d o => by simp [handleSwipe, initialState], fun user s d o => ?_⟩
  unfold handleSwipe
  by_cases h : s.currentIndex ≥ s.predictions.length
  · simp [h, countOrderRequests]
  · by_cases hc : placeOrderCond s user <;>
      simp [h, hc, countOrderRequests] <;> cases o <;> simp

/-- C3 witness: the guards evaluated at the concrete completed session. -/
theorem c3_guard_amended_witness :
    handleSwipe (some ⟨"kkk", "ppp"⟩) completeState Direction.yes OrderOutcome.ok
      = (completeState, [])
    ∧ skipStep completeState = completeState
    ∧ countOrderRequests
        (handleSwipe (some ⟨"kkk", "ppp"⟩) (sessionStart liveMarkets) Direction.yes
          OrderOutcome.ok).2 ≤ 1 :=
  ⟨(c3_guard_amended.1 (some ⟨"kkk", "ppp"⟩) completeState Direction.yes
      OrderOutcome.ok (by decide)).1,
   (c3_guard_amended.1 (some ⟨"kkk", "ppp"⟩) completeState Direction.yes
      OrderOutcome.ok (by decide)).2,
   c3_guard_amended.2.2 (some ⟨"kkk", "ppp"⟩) (sessionStart liveMarkets)
      Direction.yes OrderOutcome.ok⟩

/-- C9: with an absent user object or an empty credential field, the balance
fetch issues no network request at all, leaves the stored balance (and every
other field) untouched, and only clears the balance-loading flag; from the
initial null balance the neutral placeholder is then displayed. -/
theorem c9_balance_no_creds (user : Option Credentials) (net : BalanceNet)
    (s : SwipeState) (h : credsMissing user = true) :
    fetchBalance user net s = ({ s with balanceLoading := false }, [])
    ∧ (fetchBalance user net s).1.accountBalance = s.accountBalance
    ∧ (fetchBalance user net s).2 = []
    ∧ Effect.balanceRequest ∉ (fetchBalance user net s).2
    ∧ (s.accountBalance = none →
        displayBalance (fetchBalance user net s).1 = BalanceDisplay.placeholder) := by
  refine ⟨by simp [fetchBalance, h], by simp [fetchBalance, h], by simp [fetchBalance, h],
    by simp [fetchBalance, h], fun hb => by simp [fetchBalance, h, displayBalance, hb]⟩

/-- C9 witness: the credential-absence path evaluated with an empty API key
on the initial component state. -/
theorem c9_balance_no_creds_witness :
    fetchBalance (some ⟨"", "ppp"⟩) (BalanceNet.success []) initialState
      = ({ initialState with balanceLoading := false }, [])
    ∧ displayBalance (fetchBalance (some ⟨"", "ppp"⟩) (BalanceNet.success [])
        initialState).1 = BalanceDisplay.placeholder :=
  ⟨(c9_balance_no_creds (some ⟨"", "ppp"⟩) (BalanceNet.success []) initialState
      (by decide)).1,
   (c9_balance_no_creds (some ⟨"", "ppp"⟩) (BalanceNet.success []) initialState
      (by decide)).2.2.2.2 rfl⟩

/-- C10: the stored account balance is only ever set to an actual (non-NaN)
numeric value — any balance fetch either leaves the stored balance unchanged
or stores a finite rational; when normalization yields null or NaN the store
is left untouched; and the rendering guard never displays NaN, showing the
placeholder instead, for any state whatsoever. -/
theorem c10_balance_never_nan (user : Option Credentials) (net : BalanceNet)
    (s : SwipeState) (data : List (String × JVal))
    (h : (fetchBalance user net s).1.accountBalance ≠ s.accountBalance) :
    (∃ q : ℚ, (fetchBalance user net s).1.accountBalance = some (JNum.fin q))
    ∧ ((normalizeBalanceSwipe data = none ∨ normalizeBalanceSwipe data = some JNum.nan) →
        (fetchBalance user (BalanceNet.success data) s).1.accountBalance
          = s.accountBalance)
    ∧ (∀ s2 : SwipeState, displayBalance s2 ≠ BalanceDisplay.money JNum.nan) := by
  refine ⟨?_, ?_, ?_⟩
  · unfold fetchBalance at h ⊢
    by_cases hm : credsMissing user
    · simp [hm] at h
    · simp only [hm, if_false] at h ⊢
      cases net with
      | success d =>
        simp only at h ⊢
        cases hb : normalizeBalanceSwipe d with
        | none => simp [hb] at h
        | some v =>
          cases v with
          | nan => simp [hb, isNaNb] at h
          | fin q => simp [hb, isNaNb] at h ⊢
      | httpError e => simp at h
      | netError m => simp at h
  · intro hnorm
    unfold fetchBalance
    by_cases hm : credsMissing user
    · simp [hm]
    · rcases hnorm with hn | hn <;> simp [hm, hn, isNaNb]
  · intro s2
    unfold displayBalance
    by_cases hl : s2.balanceLoading
    · simp [hl]
    · simp only [hl, if_false]
      cases hb : s2.accountBalance with
      | none => simp
      | some v => cases v <;> simp [isNaNb]

/-- C10 witness: a body whose balance field is non-numeric normalizes to NaN
and leaves the store untouched, while a numeric body changes the store to a
finite value. -/
theorem c10_balance_never_nan_witness :
    (∃ q : ℚ, (fetchBalance (some ⟨"kkk", "ppp"⟩)
        (BalanceNet.success [("balance", JVal.num (JNum.fin 5000))])
        initialState).1.accountBalance = some (JNum.fin q))
    ∧ (fetchBalance (some ⟨"kkk", "ppp"⟩)
        (BalanceNet.success [("balance", JVal.nonnum)])
        initialState).1.accountBalance = initialState.accountBalance :=
  ⟨(c10_balance_never_nan (some ⟨"kkk", "ppp"⟩)
      (BalanceNet.success [("balance", JVal.num (JNum.fin 5000))]) initialState
      [("balance", JVal.nonnum)] (by decide)).1,
   (c10_balance_never_nan (some ⟨"kkk", "ppp"⟩)
      (BalanceNet.success [("balance", JVal.num (JNum.fin 5000))]) initialState
      [("balance", JVal.nonnum)] (by decide)).2.1
     (Or.inr (by decide))⟩

/-- C8: the balance normalization of the category screen checks, in order, a
`balance` field treated as cents and divided by 100, then `balance_cents`
divided by 100, then `account_balance` or `portfolio_balance` taken as
already-decimal, and as a last resort the first positive numeric field
treated as cents and divided by 100; in particular a body of
`(balance, 5000)` yields 50 and one of `(balance_cents, 1234)` yields
12.34, also through the component's stored-balance path. -/
theorem c8_balance_normalization (data : List (String × JVal)) (v : JVal) (q : ℚ) :
    (data.lookup "balance" = some v →
        normalizeBalanceCat data = some (jdiv100 (parseFloatJ v)))
    ∧ (data.lookup "balance" = none → data.lookup "balance_cents" = some v →
        normalizeBalanceCat data = some (jdiv100 (parseFloatJ v)))
    ∧ (data.lookup "balance" = none → data.lookup "balance_cents" = none →
        data.lookup "account_balance" = some v →
        normalizeBalanceCat data = some (parseFloatJ v))
    ∧ (data.lookup "balance" = none → data.lookup "balance_cents" = none →
        data.lookup "account_balance" = none →
        data.lookup "portfolio_balance" = some v →
        normalizeBalanceCat data = some (parseFloatJ v))
    ∧ (data.lookup "balance" = none → data.lookup "balance_cents" = none →
        data.lookup "account_balance" = none →
        data.lookup "portfolio_balance" = none →
        (data.filterMap (fun p => positiveNumField p.2)).head? = some q →
        normalizeBalanceCat data = some (JNum.fin (q / 100)))
    ∧ normalizeBalanceCat [("balance", JVal.num (JNum.fin 5000))]
        = some (JNum.fin 50)
    ∧ normalizeBalanceCat [("balance_cents", JVal.num (JNum.fin 1234))]
        = some (JNum.fin (1234 / 100))
    ∧ (fetchBalance (some ⟨"kkk", "ppp"⟩)
        (BalanceNet.success [("balance", JVal.num (JNum.fin 5000))])
        initialState).1.accountBalance = some (JNum.fin 50) := by
  refine ⟨fun h1 => by simp [normalizeBalanceCat, h1],
    fun h1 h2 => by simp [normalizeBalanceCat, h1, h2],
    fun h1 h2 h3 => by simp [normalizeBalanceCat, h1, h2, h3],
    fun h1 h2 h3 h4 => by simp [normalizeBalanceCat, h1, h2, h3, h4],
    fun h1 h2 h3 h4 h5 => ?_, ?_, ?_, ?_⟩
  · simp only [normalizeBalanceCat, h1, h2, h3, h4]
    cases hl : data.filterMap (fun p => positiveNumField p.2) with
    | nil => simp [hl] at h5
    | cons a t => simp [hl] at h5; simp [hl, h5]
  · simp [normalizeBalanceCat, jdiv100, parseFloatJ]
    norm_num
  · have e1 : List.lookup "balance" [("balance_cents", JVal.num (JNum.fin 1234))] = none := by
      decide
    have e2 : List.lookup "balance_cents" [("balance_cents", JVal.num (JNum.fin 1234))]
        = some (JVal.num (JNum.fin 1234)) := by decide
    simp [normalizeBalanceCat, e1, e2, jdiv100, parseFloatJ]
  · simp [fetchBalance, credsMissing, normalizeBalanceSwipe, jdiv100, parseFloatJ, isNaNb]
    norm_num

/-- C8 witness: the ordered chain evaluated on concrete bodies exercising
the portfolio-balance branch and the last-resort positive-numeric branch. -/
theorem c8_balance_normalization_witness :
    normalizeBalanceCat [("note", JVal.nonnum), ("portfolio_balance", JVal.num (JNum.fin 12))]
      = some (JNum.fin 12)
    ∧ normalizeBalanceCat [("note", JVal.nonnum), ("volume", JVal.num (JNum.fin 250))]
      = some (JNum.fin (250 / 100)) :=
  ⟨by
    have h := c8_balance_normalization
      [("note", JVal.nonnum), ("portfolio_balance", JVal.num (JNum.fin 12))]
      (JVal.num (JNum.fin 12)) 0
    exact h.2.2.2.1 (by decide) (by decide) (by decide) (by decide),
   by
    have h := c8_balance_normalization
      [("note", JVal.nonnum), ("volume", JVal.num (JNum.fin 250))]
      JVal.nonnum 250
    exact h.2.2.2.2.1 (by decide) (by decide) (by decide) (by decide) (by decide)⟩

/-- Every category id resolves to one of the fixed 8-item sample lists. -/
theorem predictionData_length (categoryId : String) :
    (predictionData categoryId).length = 8 := by
  unfold predictionData
  repeat' split
  all_goals rfl

/-- C5: for every category id and credential pair, missing or empty
credentials make the resolver return exactly the fixed 8-item sample list
for that category id without touching the error state; any non-success
response, transport failure, or empty (or absent) transformed market list
falls back to that same sample list; the resulting predictions list is
never empty; and an unrecognized category id selects the default random
list. -/
theorem c5_resolver_fallback (categoryId : String) (user : Option Credentials)
    (net : MarketsNet) (msg : String) (errField : Option String) :
    (credsMissing user = true →
        fetchMarkets categoryId user net = (predictionData categoryId, none))
    ∧ (predictionData categoryId).length = 8
    ∧ (fetchMarkets categoryId user (MarketsNet.httpError errField)).1
        = predictionData categoryId
    ∧ (fetchMarkets categoryId user (MarketsNet.netError msg)).1
        = predictionData categoryId
    ∧ (fetchMarkets categoryId user (MarketsNet.success (some []))).1
        = predictionData categoryId
    ∧ (fetchMarkets categoryId user (MarketsNet.success none)).1
        = predictionData categoryId
    ∧ (fetchMarkets categoryId user net).1 ≠ []
    ∧ (categoryId ∉ ["football", "basketball", "tennis", "crypto", "stocks", "random"] →
        predictionData categoryId = sampleRandom) := by
  have hlen := predictionData_length categoryId
  have hne : predictionData categoryId ≠ [] := by
    intro he; rw [he] at hlen; simp at hlen
  refine ⟨fun hcm => by simp [fetchMarkets, hcm], hlen, ?_, ?_, ?_, ?_, ?_, ?_⟩
  · by_cases h2 : credsMissing user <;> simp [fetchMarkets, h2]
  · by_cases h2 : credsMissing user <;> simp [fetchMarkets, h2]
  · by_cases h2 : credsMissing user <;> simp [fetchMarkets, h2]
  · by_cases h2 : credsMissing user <;> simp [fetchMarkets, h2]
  · by_cases h2 : credsMissing user
    · simp [fetchMarkets, h2, hne]
    · cases net with
      | success ms =>
        simp only [fetchMarkets, h2, Bool.false_eq_true, if_false]
        by_cases hpos : (List.map formatMarket (ms.getD [])).length > 0
        · rw [if_pos hpos]
          show List.map formatMarket (ms.getD []) ≠ []
          intro he
          rw [he] at hpos
          simp at hpos
        · rw [if_neg hpos]
          exact hne
      | httpError e => simp [fetchMarkets, h2, hne]
      | netError m => simp [fetchMarkets, h2, hne]
  · intro hunknown
    simp only [List.mem_cons, List.mem_singleton, not_or] at hunknown
    obtain ⟨h1, h2, h3, h4, h5, h6, -⟩ := hunknown
    simp [predictionData, h1, h2, h3, h4, h5, h6]

/-- C5 witness: the fallback behavior evaluated for the recognized
basketball category — with absent credentials, with a failed listing
request under present credentials, and with an empty market list — and the
default-list behavior for a concrete unrecognized id. -/
theorem c5_resolver_fallback_witness :
    fetchMarkets "basketball" none (MarketsNet.netError "down")
      = (predictionData "basketball", none)
    ∧ (predictionData "basketball").length = 8
    ∧ predictionData "basketball" = sampleBasketball
    ∧ (fetchMarkets "basketball" (some ⟨"kkk", "ppp"⟩)
        (MarketsNet.httpError none)).1 = predictionData "basketball"
    ∧ (fetchMarkets "basketball" (some ⟨"kkk", "ppp"⟩)
        (MarketsNet.success (some []))).1 = predictionData "basketball"
    ∧ (fetchMarkets "basketball" (some ⟨"kkk", "ppp"⟩)
        (MarketsNet.httpError none)).1 ≠ []
    ∧ predictionData "esports" = sampleRandom := by
  have h1 := c5_resolver_fallback "basketball" none (MarketsNet.netError "down")
    "down" none
  have h2 := c5_resolver_fallback "basketball" (some ⟨"kkk", "ppp"⟩)
    (MarketsNet.httpError none) "down" none
  have h3 := c5_resolver_fallback "esports" none (MarketsNet.netError "down")
    "down" none
  exact ⟨h1.1 (by decide), h1.2.1, rfl, h2.2.2.1, h2.2.2.2.2.1,
    h2.2.2.2.2.2.2.1, h3.2.2.2.2.2.2.2 (by decide)⟩

/-- The session invariant at operation boundaries: the tally is bounded by
the cursor, the cursor is bounded by the number of markets, and no pacing
callback is outstanding. -/
def SessionInv (s : SwipeState) : Prop :=
  s.statsYes + s.statsNo ≤ s.currentIndex
  ∧ s.currentIndex ≤ s.predictions.length
  ∧ s.pendingAdvances = 0

/-- One atomic-granularity event preserves the markets list. -/
theorem atomicStep_predictions (user : Option Credentials) (s : SwipeState)
    (st : AtomicStep) : (atomicStep user s st).predictions = s.predictions := by
  cases st with
  | vote d o =>
    show (fireAdvance (handleSwipe user s d o).1).predictions = s.predictions
    unfold handleSwipe fireAdvance
    by_cases hlen : s.currentIndex ≥ s.predictions.length
    · simp [hlen]
      split <;> rfl
    · simp [hlen]
  | skip =>
    show (skipStep s).predictions = s.predictions
    unfold skipStep
    split <;> rfl

/-- One atomic-granularity event preserves the session invariant. -/
theorem sessionInv_step (user : Option Credentials) (s : SwipeState)
    (st : AtomicStep) (h : SessionInv s) : SessionInv (atomicStep user s st) := by
  obtain ⟨htally, hcursor, hpending⟩ := h
  cases st with
  | vote d o =>
    show SessionInv (fireAdvance (handleSwipe user s d o).1)
    unfold handleSwipe fireAdvance
    by_cases hlen : s.currentIndex ≥ s.predictions.length
    · simp only [hlen, if_true]
      simp only [hpending, if_pos]
      exact ⟨htally, hcursor, hpending⟩
    · simp only [hlen, if_false]
      have hlt : s.currentIndex < s.predictions.length := lt_of_not_ge hlen
      cases d <;> (simp [SessionInv, hpending]; omega)
  | skip =>
    show SessionInv (skipStep s)
    unfold skipStep
    by_cases hlen : s.currentIndex ≥ s.predictions.length
    · simp only [hlen, if_true]
      exact ⟨htally, hcursor, hpending⟩
    · have hlt : s.currentIndex < s.predictions.length := lt_of_not_ge hlen
      simp [SessionInv, hlen, hpending]
      omega

/-- Running atomic-granularity events preserves the invariant and the
markets list. -/
theorem sessionInv_run (user : Option Credentials) (l : List AtomicStep)
    (s : SwipeState) (h : SessionInv s) :
    SessionInv (runAtomic user s l)
    ∧ (runAtomic user s l).predictions = s.predictions := by
  induction l generalizing s with
  | nil => exact ⟨h, rfl⟩
  | cons st rest ih =>
    have hstep := sessionInv_step user s st h
    have hpred := atomicStep_predictions user s st
    have hrec := ih (atomicStep user s st) hstep
    exact ⟨hrec.1, hrec.2.trans hpred⟩

/-- C1 counterexample: in the live one-market session, immediately after a
vote the tally already exceeds the still-unmoved cursor, and a second vote
issued during the first vote's pacing window drives the cursor to 2, past
the single-market list, once both scheduled advances fire — so the claimed
invariant does not hold in every reachable state of the vote/skip
interleavings the code admits. -/
theorem c1_invariant_counterexample :
    ((runEng (some ⟨"kkk", "ppp"⟩) (sessionStart liveMarkets)
        [EngStep.vote Direction.yes OrderOutcome.ok]).statsYes
      + (runEng (some ⟨"kkk", "ppp"⟩) (sessionStart liveMarkets)
          [EngStep.vote Direction.yes OrderOutcome.ok]).statsNo
      > (runEng (some ⟨"kkk", "ppp"⟩) (sessionStart liveMarkets)
          [EngStep.vote Direction.yes OrderOutcome.ok]).currentIndex)
    ∧ ((runEng (some ⟨"kkk", "ppp"⟩) (sessionStart liveMarkets)
        [EngStep.vote Direction.yes OrderOutcome.ok,
         EngStep.vote Direction.yes OrderOutcome.ok,
         EngStep.fire, EngStep.fire]).currentIndex
      > (runEng (some ⟨"kkk", "ppp"⟩) (sessionStart liveMarkets)
          [EngStep.vote Direction.yes OrderOutcome.ok,
           EngStep.vote Direction.yes OrderOutcome.ok,
           EngStep.fire, EngStep.fire]).predictions.length) := by
  exact ⟨by decide, by decide⟩

/-- C1 amended: provided each vote's pacing delay elapses (its scheduled
advance fires) before the next vote or skip is issued — votes taken
atomically — every state reachable from a session start satisfies
tally.yes + tally.no ≤ cursor ≤ length(markets); and a skip on an in-range
cursor increments the cursor by exactly one and never changes the tally. -/
theorem c1_invariant_amended (user : Option Credentials) (markets : List Market)
    (l : List AtomicStep) :
    (runAtomic user (sessionStart markets) l).statsYes
        + (runAtomic user (sessionStart markets) l).statsNo
      ≤ (runAtomic user (sessionStart markets) l).currentIndex
    ∧ (runAtomic user (sessionStart markets) l).currentIndex ≤ markets.length
    ∧ (runAtomic user (sessionStart markets) l).predictions = markets
    ∧ (∀ s : SwipeState, s.currentIndex < s.predictions.length →
        (skipStep s).currentIndex = s.currentIndex + 1
        ∧ (skipStep s).statsYes = s.statsYes
        ∧ (skipStep s).statsNo = s.statsNo) := by
  have hstart : SessionInv (sessionStart markets) := by
    refine ⟨by simp [sessionStart, initialState], by simp [sessionStart, initialState],
      by simp [sessionStart, initialState]⟩
  have hrun := sessionInv_run user l (sessionStart markets) hstart
  have hpred : (runAtomic user (sessionStart markets) l).predictions = markets := by
    rw [hrun.2]; rfl
  refine ⟨hrun.1.1, ?_, hpred, ?_⟩
  · have := hrun.1.2.1
    rwa [hpred] at this
  · intro s hs
    have hn : ¬ s.currentIndex ≥ s.predictions.length := not_le.mpr hs
    exact ⟨by simp [skipStep, hn], by simp [skipStep, hn], by simp [skipStep, hn]⟩

/-- C1 witness: the amended invariant evaluated on the live one-market
session after an atomic yes-vote, and the skip property at the session
start. -/
theorem c1_invariant_amended_witness :
    (runAtomic (some ⟨"kkk", "ppp"⟩) (sessionStart liveMarkets)
        [AtomicStep.vote Direction.yes OrderOutcome.ok]).statsYes
      + (runAtomic (some ⟨"kkk", "ppp"⟩) (sessionStart liveMarkets)
          [AtomicStep.vote Direction.yes OrderOutcome.ok]).statsNo
      ≤ (runAtomic (some ⟨"kkk", "ppp"⟩) (sessionStart liveMarkets)
          [AtomicStep.vote Direction.yes OrderOutcome.ok]).currentIndex
    ∧ (runAtomic (some ⟨"kkk", "ppp"⟩) (sessionStart liveMarkets)
        [AtomicStep.vote Direction.yes OrderOutcome.ok]).currentIndex
      ≤ liveMarkets.length
    ∧ (skipStep (sessionStart liveMarkets)).currentIndex
        = (sessionStart liveMarkets).currentIndex + 1
    ∧ (skipStep (sessionStart liveMarkets)).statsYes
        = (sessionStart liveMarkets).statsYes := by
  have h := c1_invariant_amended (some ⟨"kkk", "ppp"⟩) liveMarkets
    [AtomicStep.vote Direction.yes OrderOutcome.ok]
  have hskip := h.2.2.2 (sessionStart liveMarkets) (by decide)
  exact ⟨h.1, h.2.1, hskip.1, hskip.2.1⟩
